import Mathlib

/-!
Shallow embedding of the vehicle-rental booking backend (Actix-Example).

Sources embedded here:
* src/vehicle-api/src/authentication/identity.rs (Role, Identity; the role set
  is the one handled by every validator and controller: Admin, CarManager,
  MotorbikeManager, Customer — the API-key middleware maps the Customer1 and
  Customer2 keys to the single Customer role with distinct user ids)
* src/vehicle-api/src/error.rs (AppError)
* src/vehicle-api/src/models/booking.rs (BookingStatus, Booking, requests)
* src/vehicle-api/src/services/mongodb/booking/has_overlapping_bookings.rs
* src/vehicle-api/src/validator/booking.rs
* src/vehicle-api/src/controllers/booking.rs
* src/vehicle-api/src/models/vehicle.rs, src/vehicle-api/src/validator/vehicle.rs,
  src/vehicle-api/src/controllers/vehicle.rs
* src/vehicle-api/src/services/mongodb/query_builder.rs

Dates (chrono NaiveDate) are modelled as integers (day numbers), timestamps
(DateTime Utc) as integers, ObjectId as a natural number, f64 prices as
rationals.  The MongoDB store is modelled as a list of records; a query filter
document is evaluated against each record with the semantics of the operators
the code uses (field equality, comparison operators, membership).
-/

namespace VehicleApi

abbrev ObjectId := Nat

abbrev Date := Int

/-- Role, from authentication/identity.rs as used by all validators and
controllers (middleware.rs maps API keys Customer1/Customer2 to Customer). -/
inductive Role where
  | Admin
  | CarManager
  | MotorbikeManager
  | Customer
deriving DecidableEq, Repr

/-- Identity, from authentication/identity.rs. -/
structure Identity where
  role : Role
  user_id : String
deriving DecidableEq, Repr

/-- AppError, from error.rs. -/
inductive AppError where
  | NotFound (message : String)
  | Forbidden (message : String)
  | Unauthorized (message : String)
  | InternalServerError (message : String)
  | BadRequest (message : String)
deriving DecidableEq, Repr

/-- BookingStatus, from models/booking.rs: Rejected and Cancelled carry a
free-text reason. -/
inductive BookingStatus where
  | Pending
  | Confirmed
  | Rejected (reason : String)
  | Cancelled (reason : String)
deriving DecidableEq, Repr

/-- The serde tag stored in the document database for a status (serde
rename_all UPPERCASE with tag "status", models/booking.rs). -/
def BookingStatus.tag : BookingStatus → String
  | .Pending => "PENDING"
  | .Confirmed => "CONFIRMED"
  | .Rejected _ => "REJECTED"
  | .Cancelled _ => "CANCELLED"

/-- Booking, from models/booking.rs. -/
structure Booking where
  id : Option ObjectId
  vehicle_id : ObjectId
  customer_id : String
  from_date : Date
  to_date : Date
  status : BookingStatus
  order_date : Int
deriving DecidableEq, Repr

/-- CreateBookingRequest, from models/booking.rs. -/
structure CreateBookingRequest where
  vehicle_id : ObjectId
  from_date : Date
  to_date : Date
deriving DecidableEq, Repr

/-- UpdateBookingRequest, from models/booking.rs. -/
structure UpdateBookingRequest where
  status : Option BookingStatus
deriving DecidableEq, Repr

/-! ## Overlap checker
services/mongodb/booking/has_overlapping_bookings.rs builds the filter
  vehicle_id = v AND from_date <= to AND to_date >= from
  AND (status = "PENDING" OR status = "CONFIRMED")
and returns whether the result set of collect_many is non-empty. -/

/-- Evaluation of the overlap filter document against one stored booking. -/
def overlapFilterMatches (vehicle_id : ObjectId) (from_date to_date : Date)
    (b : Booking) : Bool :=
  b.vehicle_id == vehicle_id
    && decide (b.from_date ≤ to_date)
    && decide (b.to_date ≥ from_date)
    && (b.status.tag == "PENDING" || b.status.tag == "CONFIRMED")

/-- has_overlapping_bookings, run against a store holding the list of all
booking documents: true iff the filtered result set is non-empty. -/
def has_overlapping_bookings (store : List Booking) (vehicle_id : ObjectId)
    (from_date to_date : Date) : Bool :=
  !(store.filter (overlapFilterMatches vehicle_id from_date to_date)).isEmpty

/-! ## Booking status-change validators, validator/booking.rs -/

/-- validate_customer_status_change, validator/booking.rs lines 95-116. -/
def validate_customer_status_change (current_status new_status : BookingStatus) :
    Except AppError Unit :=
  match new_status with
  | .Cancelled _ =>
    match current_status with
    | .Pending | .Confirmed => .ok ()
    | _ => .error (.Forbidden
        "You can only cancel bookings that are pending or confirmed.")
  | _ => .error (.Forbidden "Customers can only cancel their bookings.")

/-- validate_non_customer_status_change, validator/booking.rs lines 119-147. -/
def validate_non_customer_status_change (current_status new_status : BookingStatus) :
    Except AppError Unit :=
  match new_status with
  | .Cancelled _ => .error (.Forbidden
      "Only customers can cancel bookings. Use reject status instead.")
  | .Pending => .error (.Forbidden "Cannot change status back to pending.")
  | .Confirmed | .Rejected _ =>
    match current_status with
    | .Pending => .ok ()
    | .Confirmed =>
      match new_status with
      | .Rejected _ => .ok ()
      | _ => .error (.BadRequest "Confirmed bookings can only be rejected.")
    | .Rejected _ | .Cancelled _ =>
      .error (.BadRequest "Cannot modify rejected or cancelled bookings.")

/-- The role dispatch performed by validate_update_booking
(validator/booking.rs lines 44-52) on a requested status change. -/
def validate_status_change (role : Role) (current_status new_status : BookingStatus) :
    Except AppError Unit :=
  match role with
  | .Customer => validate_customer_status_change current_status new_status
  | .Admin | .CarManager | .MotorbikeManager =>
    validate_non_customer_status_change current_status new_status

/-- check_booking_update_permission, validator/booking.rs lines 59-74. -/
def check_booking_update_permission (identity : Identity) (booking : Booking) :
    Except AppError Unit :=
  match identity.role with
  | .Admin => .ok ()
  | .CarManager | .MotorbikeManager => .ok ()
  | .Customer =>
    if booking.customer_id == identity.user_id then .ok ()
    else .error (.Forbidden "You can only update your own bookings.")

/-- check_booking_view_permission, validator/booking.rs lines 77-92. -/
def check_booking_view_permission (identity : Identity) (booking : Booking) :
    Except AppError Unit :=
  match identity.role with
  | .Admin | .CarManager | .MotorbikeManager => .ok ()
  | .Customer =>
    if booking.customer_id == identity.user_id then .ok ()
    else .error (.Forbidden "You can only view your own bookings.")

/-! ## Booking controller, controllers/booking.rs
The persistent store and the surrounding environment are made explicit: the
list of stored booking documents, the set of ids of stored vehicles, one flag
standing for the booking-collection query failing with a driver error (the
From instance in error.rs wraps such an error as InternalServerError), the
current wall-clock time, and the ObjectId the store generates on insert. -/

/-- The environment a booking-controller call runs in. -/
structure Env where
  bookings : List Booking
  vehicles : List ObjectId
  bookingStorageError : Bool
  now : Int
  nextId : ObjectId
deriving DecidableEq, Repr

/-- has_overlapping_bookings as the caller sees it: collect_many either fails
with a storage error (wrapped InternalServerError, error.rs) or returns the
filtered documents. -/
def has_overlapping_bookingsE (env : Env) (vehicle_id : ObjectId)
    (from_date to_date : Date) : Except AppError Bool :=
  if env.bookingStorageError then
    .error (.InternalServerError "storage error")
  else
    .ok (has_overlapping_bookings env.bookings vehicle_id from_date to_date)

/-- validate_booking_creation, validator/booking.rs lines 8-32. -/
def validate_booking_creation (env : Env) (request : CreateBookingRequest) :
    Except String Unit :=
  if request.from_date ≥ request.to_date then
    .error "from_date must be before to_date"
  else
    match has_overlapping_bookingsE env request.vehicle_id
        request.from_date request.to_date with
    | .ok has_overlap =>
      if has_overlap then
        .error "Vehicle is already booked for overlapping dates."
      else
        .ok ()
    | .error _ => .error "Failed to check for booking conflicts."

/-- Booking.new, models/booking.rs lines 65-77. -/
def Booking.new (request : CreateBookingRequest) (customer_id : String)
    (now : Int) : Booking :=
  { id := none
    vehicle_id := request.vehicle_id
    customer_id := customer_id
    from_date := request.from_date
    to_date := request.to_date
    status := .Pending
    order_date := now }

/-- controllers::booking::create, controllers/booking.rs lines 10-29.
Returns the store as left behind by the call together with the result. -/
def bookingCreate (env : Env) (identity : Identity)
    (request : CreateBookingRequest) : Env × Except AppError Booking :=
  match validate_booking_creation env request with
  | .error e => (env, .error (.BadRequest e))
  | .ok _ =>
    if env.vehicles.contains request.vehicle_id then
      let booking :=
        { Booking.new request identity.user_id env.now with id := some env.nextId }
      ({ env with bookings := env.bookings ++ [booking] }, .ok booking)
    else
      (env, .error (.NotFound "Vehicle not found"))

/-- controllers::booking::list, controllers/booking.rs lines 32-47: the filter
document holds customer_id = identity.user_id exactly when the caller is a
Customer, and collect_many returns the stored bookings matching it. -/
def bookingList (env : Env) (identity : Identity) :
    Except AppError (List Booking) :=
  if env.bookingStorageError then
    .error (.InternalServerError "storage error")
  else if identity.role == .Customer then
    .ok (env.bookings.filter (fun b => b.customer_id == identity.user_id))
  else
    .ok env.bookings

/-- controllers::booking::get, controllers/booking.rs lines 79-89: fetch by
id, then run the view-permission check on a found booking. -/
def bookingGet (env : Env) (identity : Identity) (booking_id : ObjectId) :
    Except AppError (Option Booking) :=
  match env.bookings.find? (fun b => b.id == some booking_id) with
  | none => .ok none
  | some booking =>
    match check_booking_view_permission identity booking with
    | .ok _ => .ok (some booking)
    | .error e => .error e

/-- The GET /bookings/{id} route handler, routes/booking.rs lines 63-80: a
controller Ok(None) is surfaced as NotFound. -/
def bookingGetRoute (env : Env) (identity : Identity) (booking_id : ObjectId) :
    Except AppError Booking :=
  match bookingGet env identity booking_id with
  | .ok (some booking) => .ok booking
  | .ok none => .error (.NotFound "Booking not found")
  | .error e => .error e

/-! ## Vehicle model, models/vehicle.rs
Brand carries the variants validator/vehicle.rs distinguishes in its
exhaustive matches (the car brands TESLA and MERCEDES and the six motorbike
brands). -/

inductive Brand where
  | TESLA
  | MERCEDES
  | HONDA
  | YAMAHA
  | KAWASAKI
  | DUCATI
  | BMW
  | HARLEY_DAVIDSON
deriving DecidableEq, Repr

/-- The Debug rendering used by the format strings in validator/vehicle.rs. -/
def Brand.debugStr : Brand → String
  | .TESLA => "TESLA"
  | .MERCEDES => "MERCEDES"
  | .HONDA => "HONDA"
  | .YAMAHA => "YAMAHA"
  | .KAWASAKI => "KAWASAKI"
  | .DUCATI => "DUCATI"
  | .BMW => "BMW"
  | .HARLEY_DAVIDSON => "HARLEY_DAVIDSON"

inductive CarModel where
  | MODEL_S
  | MODEL_3
  | MODEL_X
  | MODEL_Y
  | CYBERTRUCK
  | ROADSTER
  | A_CLASS
  | C_CLASS
  | E_CLASS
  | S_CLASS
  | G_CLASS
  | GLC
  | GLE
  | AMG_GT
deriving DecidableEq, Repr

inductive MotorbikeModel where
  | SPORTBIKE
  | CRUISER
deriving DecidableEq, Repr

inductive FuelType where
  | PETROL
  | DIESEL
  | ELECTRIC
deriving DecidableEq, Repr

inductive Gearbox where
  | MANUAL
  | AUTOMATIC
deriving DecidableEq, Repr

structure CarMetadata where
  brand : Brand
  model : CarModel
  seats : Nat
  fuel_type : FuelType
  gearbox : Gearbox
  engine_cc : Nat
deriving DecidableEq, Repr

structure MotorbikeMetadata where
  brand : Brand
  model : MotorbikeModel
  engine_cc : Nat
  has_sidecar : Bool
deriving DecidableEq, Repr

inductive VehicleMetadata where
  | Car (metadata : CarMetadata)
  | Motorbike (metadata : MotorbikeMetadata)
deriving DecidableEq, Repr

/-- Vehicle, models/vehicle.rs (price as a rational). -/
structure Vehicle where
  id : Option ObjectId
  brand : Brand
  metadata : VehicleMetadata
  description : Option String
  price_by_day : ℚ
  year_of_production : Nat
  added_at : Int
  added_by : String
deriving DecidableEq, Repr

/-- UpdateVehicleRequest, models/vehicle.rs: description is doubly optional
so that an update can clear it. -/
structure UpdateVehicleRequest where
  description : Option (Option String)
  price_by_day : Option ℚ
deriving DecidableEq, Repr

/-! ## Vehicle validators, validator/vehicle.rs -/

/-- The `matches!` set of Tesla models used in validator/vehicle.rs. -/
def isTeslaModel : CarModel → Bool
  | .MODEL_S | .MODEL_3 | .MODEL_X | .MODEL_Y | .CYBERTRUCK | .ROADSTER => true
  | _ => false

/-- The `matches!` set of Mercedes models used in validator/vehicle.rs. -/
def isMercedesModel : CarModel → Bool
  | .A_CLASS | .C_CLASS | .E_CLASS | .S_CLASS | .G_CLASS | .GLC | .GLE
  | .AMG_GT => true
  | _ => false

/-- validate_metadata, validator/vehicle.rs lines 8-34. -/
def validate_metadata (metadata : VehicleMetadata) : Except String Unit :=
  match metadata with
  | .Car car_metadata =>
    if isTeslaModel car_metadata.model then
      if car_metadata.fuel_type ≠ .ELECTRIC then
        .error "Tesla vehicles must have Electric fuel type."
      else
        .ok ()
    else
      .ok ()
  | .Motorbike _ => .ok ()

/-- validate_brand_model, validator/vehicle.rs lines 37-108. -/
def validate_brand_model (brand : Brand) (metadata : VehicleMetadata) :
    Except String Unit :=
  match brand, metadata with
  | .TESLA, .Car car_metadata =>
    if isTeslaModel car_metadata.model then .ok ()
    else .error "Invalid model for Tesla brand."
  | .MERCEDES, .Car car_metadata =>
    if isMercedesModel car_metadata.model then .ok ()
    else .error "Invalid model for Mercedes brand."
  | .HONDA, .Motorbike _ | .YAMAHA, .Motorbike _ | .KAWASAKI, .Motorbike _
  | .DUCATI, .Motorbike _ | .BMW, .Motorbike _
  | .HARLEY_DAVIDSON, .Motorbike _ => .ok ()
  | .TESLA, .Motorbike _ | .MERCEDES, .Motorbike _ =>
    .error (brand.debugStr ++
      " is a car brand and cannot be used with motorbike metadata.")
  | .HONDA, .Car _ | .YAMAHA, .Car _ | .KAWASAKI, .Car _ | .DUCATI, .Car _
  | .BMW, .Car _ | .HARLEY_DAVIDSON, .Car _ =>
    .error (brand.debugStr ++
      " is a motorbike brand and cannot be used with car metadata.")

/-- check_vehicle_type_permission, validator/vehicle.rs lines 110-136. -/
def check_vehicle_type_permission (identity : Identity) (vehicle : Vehicle) :
    Except AppError Unit :=
  match identity.role with
  | .Admin => .ok ()
  | .CarManager =>
    match vehicle.metadata with
    | .Car _ => .ok ()
    | _ => .error (.Forbidden "CarManager can only manage cars.")
  | .MotorbikeManager =>
    match vehicle.metadata with
    | .Motorbike _ => .ok ()
    | _ => .error (.Forbidden "MotorbikeManager can only manage motorbikes.")
  | _ => .error (.Forbidden "Insufficient permissions to manage vehicles.")

/-- The derived structural validation (validator crate) on
UpdateVehicleRequest: description length in 1..=249 when supplied, price at
least 0.01 when supplied (models/vehicle.rs attribute bounds). -/
def UpdateVehicleRequest.structValid (request : UpdateVehicleRequest) : Bool :=
  (match request.description with
    | some (some s) => decide (1 ≤ s.length) && decide (s.length ≤ 249)
    | _ => true)
  && (match request.price_by_day with
    | some p => decide ((1 : ℚ) / 100 ≤ p)
    | none => true)

/-- validate_update_vehicle, validator/vehicle.rs lines 138-147: structural
validation first (its failure text comes from the validator crate; only the
BadRequest kind matters downstream), then the type permission check. -/
def validate_update_vehicle (identity : Identity) (vehicle : Vehicle)
    (request : UpdateVehicleRequest) : Except AppError Unit :=
  if request.structValid then
    check_vehicle_type_permission identity vehicle
  else
    .error (.BadRequest "Validation error")

/-- controllers::vehicle::update, controllers/vehicle.rs lines 45-71, over a
store holding the list of vehicle documents.  On success the stored document
with the requested id is replaced (find_one_and_replace) by the vehicle whose
description and price fields were overwritten from the request. -/
def vehicleUpdate (store : List Vehicle) (identity : Identity)
    (vehicle_id : ObjectId) (request : UpdateVehicleRequest) :
    List Vehicle × Except AppError Vehicle :=
  match store.find? (fun v => v.id == some vehicle_id) with
  | none => (store, .error (.NotFound "Vehicle not found"))
  | some vehicle =>
    match validate_update_vehicle identity vehicle request with
    | .error e => (store, .error e)
    | .ok _ =>
      let v1 := match request.description with
        | some description => { vehicle with description := description }
        | none => vehicle
      let v2 := match request.price_by_day with
        | some price_by_day => { v1 with price_by_day := price_by_day }
        | none => v1
      (store.map (fun v => if v.id == some vehicle_id then v2 else v), .ok v2)

/-! ## Query builder, services/mongodb/query_builder.rs
A filter document maps field names to the clause shapes the builder emits: a
plain value (exact match), a member-of-set clause, or a range document with
its optional inclusive bounds.  BVal covers the BSON value kinds the call
sites convert into. -/

inductive BVal where
  | i (v : Int)
  | q (v : ℚ)
  | s (v : String)
  | b (v : Bool)
deriving DecidableEq, Repr

inductive Clause where
  | eqV (v : BVal)
  | inSet (vs : List BVal)
  | range (min max : Option BVal)
deriving DecidableEq, Repr

abbrev Document := List (String × Clause)

/-- bson::Document::insert: replace the value at an existing key, otherwise
append the new entry. -/
def docInsert (d : Document) (key : String) (val : Clause) : Document :=
  if d.any (fun p => p.1 == key) then
    d.map (fun p => if p.1 == key then (key, val) else p)
  else
    d ++ [(key, val)]

/-- Ordering on BSON values as used by range clauses (the builder only
range-filters numeric and date values). -/
def BVal.le : BVal → BVal → Bool
  | .i x, .i y => decide (x ≤ y)
  | .q x, .q y => decide (x ≤ y)
  | _, _ => false

/-- Which stored values a clause matches: exact equality, set membership, or
the conjunction of the present inclusive bounds. -/
def Clause.matches : Clause → BVal → Bool
  | .eqV v, x => x == v
  | .inSet vs, x => vs.contains x
  | .range mn mx, x =>
    (match mn with
      | none => true
      | some lo => BVal.le lo x)
    && (match mx with
      | none => true
      | some hi => BVal.le x hi)

/-- QueryBuilder::add_filter, query_builder.rs lines 14-33 (toBson stands for
the Into Bson conversion of the element type). -/
def add_filter (toBson : α → BVal) (filter : Document) (field : String)
    (values : Option (List α)) : Document :=
  match values with
  | none => filter
  | some vals =>
    if vals.isEmpty then
      filter
    else
      match vals with
      | [v] => docInsert filter field (.eqV (toBson v))
      | _ => docInsert filter field (.inSet (vals.map toBson))

/-- QueryBuilder::add_string_filter, query_builder.rs lines 36-55 (toStr
stands for the Display rendering of the element type). -/
def add_string_filter (toStr : α → String) (filter : Document) (field : String)
    (values : Option (List α)) : Document :=
  match values with
  | none => filter
  | some vals =>
    if vals.isEmpty then
      filter
    else
      match vals with
      | [v] => docInsert filter field (.eqV (.s (toStr v)))
      | _ => docInsert filter field (.inSet (vals.map (fun v => .s (toStr v))))

/-- QueryBuilder::add_range_filter, query_builder.rs lines 61-85. -/
def add_range_filter (toBson : α → BVal) (filter : Document) (field : String)
    (min_val max_val : Option α) : Document :=
  if min_val.isNone && max_val.isNone then
    filter
  else
    docInsert filter field (.range (min_val.map toBson) (max_val.map toBson))

/-- QueryBuilder::add_boolean_filter, query_builder.rs lines 88-92. -/
def add_boolean_filter (filter : Document) (field : String)
    (value : Option Bool) : Document :=
  match value with
  | some val => docInsert filter field (.eqV (.b val))
  | none => filter

/-- strum Display of Brand (variant name). -/
def Brand.display : Brand → String := Brand.debugStr

/-- strum Display of FuelType (variant name). -/
def FuelType.display : FuelType → String
  | .PETROL => "PETROL"
  | .DIESEL => "DIESEL"
  | .ELECTRIC => "ELECTRIC"

/-- strum Display of Gearbox (variant name). -/
def Gearbox.display : Gearbox → String
  | .MANUAL => "MANUAL"
  | .AUTOMATIC => "AUTOMATIC"

/-- VehicleFilters, models/vehicle.rs. -/
structure VehicleFilters where
  brand : Option (List Brand)
  model : Option (List String)
  min_price : Option ℚ
  max_price : Option ℚ
  year_of_production : Option (List Nat)
  fuel_type : Option (List FuelType)
  gearbox : Option (List Gearbox)
  seats : Option (List Nat)
  engine_cc : Option (List Nat)
  has_sidecar : Option Bool
  added_at_from : Option Int
  added_at_to : Option Int
deriving DecidableEq, Repr

/-- VehicleFilters with every criterion absent (the Default derive). -/
def VehicleFilters.default : VehicleFilters :=
  { brand := none, model := none, min_price := none, max_price := none
    year_of_production := none, fuel_type := none, gearbox := none
    seats := none, engine_cc := none, has_sidecar := none
    added_at_from := none, added_at_to := none }

/-- VehicleFilters::to_bson_filter, models/vehicle.rs: the builder calls in
source order (seats are widened from u8 to i32 before the call). -/
def VehicleFilters.to_bson_filter (filters : VehicleFilters) : Document :=
  let f1 := add_string_filter Brand.display [] "brand" filters.brand
  let f2 := add_string_filter FuelType.display f1 "metadata.fuel_type"
    filters.fuel_type
  let f3 := add_string_filter Gearbox.display f2 "metadata.gearbox"
    filters.gearbox
  let f4 := add_filter (fun (n : Nat) => BVal.i (n : Int)) f3 "year_of_production"
    filters.year_of_production
  let f5 := add_filter (fun n => BVal.i n) f4 "metadata.seats"
    (filters.seats.map (fun l => l.map (fun s => (s : Int))))
  let f6 := add_filter (fun (n : Nat) => BVal.i (n : Int)) f5 "metadata.engine_cc"
    filters.engine_cc
  let f7 := add_filter (fun s => BVal.s s) f6 "metadata.model" filters.model
  let f8 := add_boolean_filter f7 "metadata.has_sidecar" filters.has_sidecar
  let f9 := add_range_filter (fun p => BVal.q p) f8 "price_by_day"
    filters.min_price filters.max_price
  add_range_filter (fun t => BVal.i t) f9 "added_at"
    filters.added_at_from filters.added_at_to

/-! The per-criterion clause contribution, used to state that the composite
document holds exactly one clause per present criterion. -/

/-- The clause list one add_filter criterion contributes. -/
def eqFilterClauses (toBson : α → BVal) (field : String) :
    Option (List α) → Document
  | none => []
  | some [] => []
  | some [v] => [(field, .eqV (toBson v))]
  | some vs => [(field, .inSet (vs.map toBson))]

/-- The clause list one add_string_filter criterion contributes. -/
def strFilterClauses (toStr : α → String) (field : String) :
    Option (List α) → Document
  | none => []
  | some [] => []
  | some [v] => [(field, .eqV (.s (toStr v)))]
  | some vs => [(field, .inSet (vs.map (fun v => .s (toStr v))))]

/-- The clause list one add_range_filter criterion contributes. -/
def rangeFilterClauses (toBson : α → BVal) (field : String) :
    Option α → Option α → Document
  | none, none => []
  | mn, mx => [(field, .range (mn.map toBson) (mx.map toBson))]

/-- The clause list one add_boolean_filter criterion contributes. -/
def boolFilterClauses (field : String) : Option Bool → Document
  | none => []
  | some b => [(field, .eqV (.b b))]

/-- The composite document as the concatenation of the twelve criteria's
contributions, in builder order. -/
def clausesOf (filters : VehicleFilters) : Document :=
  strFilterClauses Brand.display "brand" filters.brand
    ++ strFilterClauses FuelType.display "metadata.fuel_type" filters.fuel_type
    ++ strFilterClauses Gearbox.display "metadata.gearbox" filters.gearbox
    ++ eqFilterClauses (fun (n : Nat) => BVal.i (n : Int)) "year_of_production"
      filters.year_of_production
    ++ eqFilterClauses (fun n => BVal.i n) "metadata.seats"
      (filters.seats.map (fun l => l.map (fun s => (s : Int))))
    ++ eqFilterClauses (fun (n : Nat) => BVal.i (n : Int)) "metadata.engine_cc"
      filters.engine_cc
    ++ eqFilterClauses (fun s => BVal.s s) "metadata.model" filters.model
    ++ boolFilterClauses "metadata.has_sidecar" filters.has_sidecar
    ++ rangeFilterClauses (fun p => BVal.q p) "price_by_day"
      filters.min_price filters.max_price
    ++ rangeFilterClauses (fun t => BVal.i t) "added_at"
      filters.added_at_from filters.added_at_to

/-! ## Claim-side predicates
Definitions phrasing the claims' tables and categories, compared against the
embedded code in the theorems below. -/

/-- The role-gated transition table as claim C2 states it. -/
def statusChangePermitted (role : Role) (current target : BookingStatus) : Prop :=
  match role with
  | .Customer =>
    (∃ r, target = .Cancelled r) ∧ (current = .Pending ∨ current = .Confirmed)
  | .Admin | .CarManager | .MotorbikeManager =>
    (current = .Pending ∧ (target = .Confirmed ∨ ∃ r, target = .Rejected r))
    ∨ (current = .Confirmed ∧ ∃ r, target = .Rejected r)

/-- The brands whose category is Car (claim C6's wording). -/
def isCarBrand : Brand → Bool
  | .TESLA | .MERCEDES => true
  | _ => false

/-- The model set associated with a car brand (claim C6's wording). -/
def brandCarModels (brand : Brand) (model : CarModel) : Bool :=
  match brand with
  | .TESLA => isTeslaModel model
  | .MERCEDES => isMercedesModel model
  | _ => false

/-- The category competence of claim C9: Admin, or the manager role matching
the vehicle metadata's category. -/
def categoryCompetent (role : Role) (md : VehicleMetadata) : Prop :=
  role = .Admin
  ∨ (role = .CarManager ∧ ∃ c, md = .Car c)
  ∨ (role = .MotorbikeManager ∧ ∃ m, md = .Motorbike m)

/-- The result kind discriminator used to state witnesses. -/
def vehicleResultIsForbidden : Except AppError Vehicle → Bool
  | .error (.Forbidden _) => true
  | _ => false

/-! ## Theorems -/

/-- A filtered list is empty exactly when no element satisfies the
predicate. -/
lemma filter_isEmpty_eq_not_any (l : List α) (p : α → Bool) :
    (l.filter p).isEmpty = !l.any p := by
  induction l with
  | nil => rfl
  | cons a l ih =>
    by_cases h : p a
    · simp [List.filter_cons, h]
    · simp [List.filter_cons, h, ih]

/-- A status serializes to the PENDING or CONFIRMED tag exactly when it is
Pending or Confirmed. -/
lemma status_tag_live_iff (s : BookingStatus) :
    (s.tag == "PENDING" || s.tag == "CONFIRMED") = true ↔
      s = .Pending ∨ s = .Confirmed := by
  cases s <;> simp [BookingStatus.tag]

/-- C1: has_overlapping_bookings returns true iff some stored booking for the
same vehicle is still Pending or Confirmed and its inclusive range satisfies
from_date ≤ to and to_date ≥ from; Rejected or Cancelled bookings never make
it true, and ranges that merely touch at a shared day count (the bounds are
non-strict). -/
theorem overlap_check_iff_live_conflict (store : List Booking) (v : ObjectId)
    (f t : Date) :
    has_overlapping_bookings store v f t = true ↔
      ∃ b ∈ store, (b.status = .Pending ∨ b.status = .Confirmed) ∧
        b.vehicle_id = v ∧ b.from_date ≤ t ∧ b.to_date ≥ f := by
  rw [has_overlapping_bookings, filter_isEmpty_eq_not_any, Bool.not_not,
    List.any_eq_true]
  constructor
  · rintro ⟨b, hmem, hb⟩
    simp only [overlapFilterMatches, Bool.and_eq_true, beq_iff_eq,
      decide_eq_true_eq] at hb
    exact ⟨b, hmem, (status_tag_live_iff b.status).mp hb.2, hb.1.1.1, hb.1.1.2,
      hb.1.2⟩
  · rintro ⟨b, hmem, hlive, hveh, hf, ht⟩
    refine ⟨b, hmem, ?_⟩
    simp only [overlapFilterMatches, Bool.and_eq_true, beq_iff_eq,
      decide_eq_true_eq]
    exact ⟨⟨⟨hveh, hf⟩, ht⟩, (status_tag_live_iff b.status).mpr hlive⟩

/-- C2: the role dispatch of validate_update_booking accepts a requested
status change exactly per the role-gated table: a Customer may move only to
Cancelled and only from Pending or Confirmed; staff may move Pending to
Confirmed or Rejected and Confirmed only to Rejected, nothing from Rejected
or Cancelled; no role may target Pending and a Customer may target nothing
but Cancelled. -/
theorem status_change_validation_iff_table (role : Role)
    (current target : BookingStatus) :
    validate_status_change role current target = .ok () ↔
      statusChangePermitted role current target := by
  cases role <;> cases current <;> cases target <;>
    simp [validate_status_change, validate_customer_status_change,
      validate_non_customer_status_change, statusChangePermitted]

/-- C3: booking creation checks in order and short-circuits: (1) the date
range must satisfy from_date < to_date, (2) the overlap check must report no
conflict, (3) the referenced vehicle must exist; on success the persisted
booking has status Pending, order_date the current time, and customer_id the
caller identity's user_id (the request carries no customer id). -/
theorem booking_creation_flow (env : Env) (identity : Identity)
    (request : CreateBookingRequest) :
    (request.from_date ≥ request.to_date →
      bookingCreate env identity request =
        (env, .error (.BadRequest "from_date must be before to_date")))
    ∧ (request.from_date < request.to_date →
      env.bookingStorageError = false →
      has_overlapping_bookings env.bookings request.vehicle_id
        request.from_date request.to_date = true →
      bookingCreate env identity request =
        (env, .error
          (.BadRequest "Vehicle is already booked for overlapping dates.")))
    ∧ (request.from_date < request.to_date →
      env.bookingStorageError = false →
      has_overlapping_bookings env.bookings request.vehicle_id
        request.from_date request.to_date = false →
      env.vehicles.contains request.vehicle_id = false →
      bookingCreate env identity request =
        (env, .error (.NotFound "Vehicle not found")))
    ∧ (request.from_date < request.to_date →
      env.bookingStorageError = false →
      has_overlapping_bookings env.bookings request.vehicle_id
        request.from_date request.to_date = false →
      env.vehicles.contains request.vehicle_id = true →
      ∃ b, bookingCreate env identity request =
          ({ env with bookings := env.bookings ++ [b] }, .ok b)
        ∧ b.status = .Pending ∧ b.order_date = env.now
        ∧ b.customer_id = identity.user_id) := by
  refine ⟨?_, ?_, ?_, ?_⟩
  · intro h1
    simp [bookingCreate, validate_booking_creation, h1]
  · intro h1 h2 h3
    simp [bookingCreate, validate_booking_creation, has_overlapping_bookingsE,
      not_le.mpr h1, h2, h3]
  · intro h1 h2 h3 h4
    have h4m : request.vehicle_id ∉ env.vehicles := by simpa using h4
    simp [bookingCreate, validate_booking_creation, has_overlapping_bookingsE,
      not_le.mpr h1, h2, h3, h4m]
  · intro h1 h2 h3 h4
    have h4m : request.vehicle_id ∈ env.vehicles := by simpa using h4
    refine ⟨{ Booking.new request identity.user_id env.now
      with id := some env.nextId }, ?_, rfl, rfl, rfl⟩
    simp [bookingCreate, validate_booking_creation, has_overlapping_bookingsE,
      not_le.mpr h1, h2, h3, h4m]

/-- C3 witness: a concrete successful creation and a concrete date-order
rejection obtained from the flow theorem. -/
theorem booking_creation_flow_witness :
    (bookingCreate ⟨[], [5], false, 100, 7⟩ ⟨.Customer, "u1"⟩ ⟨5, 1, 3⟩).2.isOk
      = true
  ∧ bookingCreate ⟨[], [5], false, 100, 7⟩ ⟨.Customer, "u1"⟩ ⟨5, 3, 1⟩ =
      (⟨[], [5], false, 100, 7⟩,
        .error (.BadRequest "from_date must be before to_date")) := by
  constructor
  · obtain ⟨b, heq, -, -, -⟩ :=
      (booking_creation_flow ⟨[], [5], false, 100, 7⟩ ⟨.Customer, "u1"⟩
        ⟨5, 1, 3⟩).2.2.2 (by decide) rfl (by decide) (by decide)
    rw [heq]
    rfl
  · exact (booking_creation_flow _ _ _).1 (by decide)

/-- C5 counterexample: when the overlap check fails with a storage error, the
creation is aborted but the caller receives a BadRequest error, not the
InternalError kind the claim states. -/
theorem overlap_storage_error_kind_cex :
    bookingCreate ⟨[], [5], true, 100, 7⟩ ⟨.Customer, "u1"⟩ ⟨5, 1, 3⟩ =
      (⟨[], [5], true, 100, 7⟩,
        .error (.BadRequest "Failed to check for booking conflicts.")) := by
  rfl

/-- C5 as amended: a storage error during the overlap check aborts the
creation (the store is left unchanged, the booking is never admitted) and is
surfaced to the caller as a BadRequest error carrying the fixed conflict
message — the validator swallows the internal storage error into the
bad-request path. -/
theorem overlap_storage_error_aborts_creation (env : Env) (identity : Identity)
    (request : CreateBookingRequest)
    (hdates : request.from_date < request.to_date)
    (herr : env.bookingStorageError = true) :
    bookingCreate env identity request =
      (env, .error (.BadRequest "Failed to check for booking conflicts.")) := by
  simp [bookingCreate, validate_booking_creation, has_overlapping_bookingsE,
    not_le.mpr hdates, herr]

/-- C5 amended witness at a concrete input. -/
theorem overlap_storage_error_aborts_creation_witness :
    bookingCreate ⟨[], [], true, 0, 0⟩ ⟨.Admin, "a"⟩ ⟨1, 0, 1⟩ =
      (⟨[], [], true, 0, 0⟩,
        .error (.BadRequest "Failed to check for booking conflicts.")) :=
  overlap_storage_error_aborts_creation _ _ _ (by decide) rfl

/-- C4: staff roles may view and attempt to update any booking; a Customer
passes the view/update permission checks exactly when the booking's
customer_id equals their user_id and is otherwise Forbidden; listing returns
only the caller's own bookings for a Customer and the unfiltered list for
staff roles. -/
theorem booking_access_control (identity : Identity) (booking : Booking)
    (env : Env) :
    (identity.role = .Admin ∨ identity.role = .CarManager ∨
        identity.role = .MotorbikeManager →
      check_booking_view_permission identity booking = .ok ()
      ∧ check_booking_update_permission identity booking = .ok ())
    ∧ (identity.role = .Customer →
      (check_booking_view_permission identity booking = .ok () ↔
        booking.customer_id = identity.user_id)
      ∧ (check_booking_update_permission identity booking = .ok () ↔
        booking.customer_id = identity.user_id)
      ∧ (booking.customer_id ≠ identity.user_id →
        check_booking_view_permission identity booking =
          .error (.Forbidden "You can only view your own bookings.")
        ∧ check_booking_update_permission identity booking =
          .error (.Forbidden "You can only update your own bookings.")))
    ∧ (env.bookingStorageError = false →
      (identity.role = .Customer →
        bookingList env identity =
          .ok (env.bookings.filter
            (fun b => b.customer_id == identity.user_id)))
      ∧ (identity.role ≠ .Customer →
        bookingList env identity = .ok env.bookings)) := by
  obtain ⟨role, uid⟩ := identity
  refine ⟨?_, ?_, ?_⟩
  · rintro (h | h | h) <;> subst h <;> exact ⟨rfl, rfl⟩
  · intro hrole
    cases hrole
    refine ⟨?_, ?_, ?_⟩
    · by_cases h : booking.customer_id = uid <;>
        simp [check_booking_view_permission, h]
    · by_cases h : booking.customer_id = uid <;>
        simp [check_booking_update_permission, h]
    · intro hne
      exact ⟨by simp [check_booking_view_permission, hne],
        by simp [check_booking_update_permission, hne]⟩
  · intro hstore
    constructor
    · intro hrole
      cases hrole
      simp [bookingList, hstore]
    · intro hrole
      cases role <;> simp [bookingList, hstore]
      simp at hrole

/-- C4 witness: concrete staff access, a concrete Forbidden for a foreign
customer, and a concrete scoped list. -/
theorem booking_access_control_witness :
    (check_booking_view_permission ⟨.Admin, "a"⟩
        ⟨some 1, 2, "u1", 0, 1, .Pending, 0⟩ = .ok ()
      ∧ check_booking_update_permission ⟨.Admin, "a"⟩
        ⟨some 1, 2, "u1", 0, 1, .Pending, 0⟩ = .ok ())
  ∧ check_booking_view_permission ⟨.Customer, "u2"⟩
      ⟨some 1, 2, "u1", 0, 1, .Pending, 0⟩ =
      .error (.Forbidden "You can only view your own bookings.")
  ∧ bookingList ⟨[⟨some 1, 2, "u1", 0, 1, .Pending, 0⟩], [], false, 0, 0⟩
      ⟨.Customer, "u1"⟩ = .ok [⟨some 1, 2, "u1", 0, 1, .Pending, 0⟩] := by
  refine ⟨?_, ?_, ?_⟩
  · exact (booking_access_control ⟨.Admin, "a"⟩
      ⟨some 1, 2, "u1", 0, 1, .Pending, 0⟩
      ⟨[], [], false, 0, 0⟩).1 (Or.inl rfl)
  · exact (((booking_access_control ⟨.Customer, "u2"⟩
      ⟨some 1, 2, "u1", 0, 1, .Pending, 0⟩
      ⟨[], [], false, 0, 0⟩).2.1 rfl).2.2 (by decide)).1
  · have h := ((booking_access_control ⟨.Customer, "u1"⟩
      ⟨some 1, 2, "u1", 0, 1, .Pending, 0⟩
      ⟨[⟨some 1, 2, "u1", 0, 1, .Pending, 0⟩], [], false, 0, 0⟩).2.2 rfl).1 rfl
    simpa using h

/-- C10: for a stored booking, a Customer whose user_id differs from its
customer_id receives Forbidden from the get route (not an absent result),
while the NotFound outcome occurs exactly when no booking with the requested
id exists — so the error kind reveals existence. -/
theorem booking_get_error_reveals_existence (env : Env) (identity : Identity)
    (bid : ObjectId) :
    (∀ b, env.bookings.find? (fun x => x.id == some bid) = some b →
      identity.role = .Customer → b.customer_id ≠ identity.user_id →
      bookingGetRoute env identity bid =
        .error (.Forbidden "You can only view your own bookings."))
    ∧ (bookingGetRoute env identity bid =
        .error (.NotFound "Booking not found") ↔
      env.bookings.find? (fun x => x.id == some bid) = none) := by
  obtain ⟨role, uid⟩ := identity
  constructor
  · intro b hfind hrole hne
    cases hrole
    simp [bookingGetRoute, bookingGet, hfind, check_booking_view_permission,
      hne]
  · cases hfind : env.bookings.find? (fun x => x.id == some bid) with
    | none => simp [bookingGetRoute, bookingGet, hfind]
    | some b =>
      simp only [bookingGetRoute, bookingGet, hfind]
      cases role <;> simp [check_booking_view_permission]
      by_cases h : b.customer_id = uid <;> simp [h]

/-- C10 witness: with one stored booking owned by u1, customer u2 receives
Forbidden on its id and NotFound on a fresh id. -/
theorem booking_get_error_reveals_existence_witness :
    bookingGetRoute ⟨[⟨some 1, 2, "u1", 0, 1, .Pending, 0⟩], [], false, 0, 0⟩
      ⟨.Customer, "u2"⟩ 1 =
      .error (.Forbidden "You can only view your own bookings.")
  ∧ bookingGetRoute ⟨[⟨some 1, 2, "u1", 0, 1, .Pending, 0⟩], [], false, 0, 0⟩
      ⟨.Customer, "u2"⟩ 9 =
      .error (.NotFound "Booking not found") := by
  constructor
  · exact (booking_get_error_reveals_existence _ _ _).1
      ⟨some 1, 2, "u1", 0, 1, .Pending, 0⟩ (by decide) rfl (by decide)
  · exact (booking_get_error_reveals_existence _ _ _).2.mpr (by decide)

/-- C6: validate_brand_model accepts exactly the brand/metadata pairs whose
brand matches the metadata's category with, for cars, the model in the
brand's model set; validate_metadata independently rejects exactly a Car
whose model is in the electric-only (Tesla) lineup with a non-Electric fuel
type; the three violations carry three distinct messages; and
(TESLA, Car MODEL_3 Electric) passes both checks. -/
theorem vehicle_compatibility_validation :
    (∀ (brand : Brand) (md : VehicleMetadata),
      validate_brand_model brand md = .ok () ↔
        (match md with
          | .Car car =>
            isCarBrand brand = true ∧ brandCarModels brand car.model = true
          | .Motorbike _ => isCarBrand brand = false))
    ∧ (∀ md : VehicleMetadata,
      validate_metadata md = .ok () ↔
        (match md with
          | .Car car => isTeslaModel car.model = true → car.fuel_type = .ELECTRIC
          | .Motorbike _ => True))
    ∧ (validate_metadata (.Car ⟨.TESLA, .MODEL_3, 5, .DIESEL, .MANUAL, 2000⟩) =
        .error "Tesla vehicles must have Electric fuel type."
      ∧ validate_brand_model .TESLA (.Motorbike ⟨.TESLA, .SPORTBIKE, 600, false⟩) =
        .error "TESLA is a car brand and cannot be used with motorbike metadata."
      ∧ validate_brand_model .TESLA (.Car ⟨.TESLA, .A_CLASS, 5, .ELECTRIC, .MANUAL, 2000⟩) =
        .error "Invalid model for Tesla brand."
      ∧ ("Tesla vehicles must have Electric fuel type." : String) ≠
        "TESLA is a car brand and cannot be used with motorbike metadata."
      ∧ ("Tesla vehicles must have Electric fuel type." : String) ≠
        "Invalid model for Tesla brand."
      ∧ ("TESLA is a car brand and cannot be used with motorbike metadata." : String) ≠
        "Invalid model for Tesla brand.")
    ∧ (validate_brand_model .TESLA (.Car ⟨.TESLA, .MODEL_3, 5, .ELECTRIC, .MANUAL, 2000⟩) =
        .ok ()
      ∧ validate_metadata (.Car ⟨.TESLA, .MODEL_3, 5, .ELECTRIC, .MANUAL, 2000⟩) =
        .ok ()) := by
  refine ⟨?_, ?_, ⟨rfl, rfl, rfl, by decide, by decide, by decide⟩, rfl, rfl⟩
  · intro brand md
    rcases md with ⟨car⟩ | ⟨mb⟩
    · obtain ⟨cb, cm, cs, cf, cg, cc⟩ := car
      cases brand <;> cases cm <;>
        simp [validate_brand_model, isCarBrand, brandCarModels, isTeslaModel,
          isMercedesModel]
    · cases brand <;> simp [validate_brand_model, isCarBrand]
  · intro md
    rcases md with ⟨car⟩ | ⟨mb⟩
    · obtain ⟨cb, cm, cs, cf, cg, cc⟩ := car
      cases cm <;> cases cf <;> simp [validate_metadata, isTeslaModel]
    · simp [validate_metadata]

/-- C9 counterexample: a CarManager updating a motorbike vehicle with a
structurally invalid price receives BadRequest, not the Forbidden error the
claim promises every competence-mismatched manager. -/
theorem vehicle_update_permission_cex :
    vehicleUpdate
      [⟨some 1, .HONDA, .Motorbike ⟨.HONDA, .SPORTBIKE, 600, false⟩, none,
        10, 2020, 0, "admin"⟩]
      ⟨.CarManager, "m"⟩ 1 ⟨none, some 0⟩ =
      ([⟨some 1, .HONDA, .Motorbike ⟨.HONDA, .SPORTBIKE, 600, false⟩, none,
        10, 2020, 0, "admin"⟩],
        .error (.BadRequest "Validation error")) := by
  have hval : ({ description := none, price_by_day := some 0 } :
      UpdateVehicleRequest).structValid = false := by
    simp [UpdateVehicleRequest.structValid]
  have hfind : [(⟨some 1, .HONDA, .Motorbike ⟨.HONDA, .SPORTBIKE, 600, false⟩,
      none, 10, 2020, 0, "admin"⟩ : Vehicle)].find?
      (fun x => x.id == some 1) =
      some ⟨some 1, .HONDA, .Motorbike ⟨.HONDA, .SPORTBIKE, 600, false⟩,
        none, 10, 2020, 0, "admin"⟩ := rfl
  simp [vehicleUpdate, hfind, validate_update_vehicle, hval]

/-- C9 as amended: when the stored vehicle is found and the request passes
structural validation, Admin or the category-matching manager gets a
successful update that changes only description and price_by_day — id,
brand, metadata, year_of_production, added_at and added_by are unchanged and
the store replaces just the target document — while a competence-mismatched
manager or any other role gets Forbidden with the store unchanged; a
structurally invalid request is rejected as BadRequest before the permission
check, also leaving the store unchanged. -/
theorem vehicle_update_frame (store : List Vehicle) (identity : Identity)
    (vid : ObjectId) (request : UpdateVehicleRequest) (v : Vehicle)
    (hfind : store.find? (fun x => x.id == some vid) = some v) :
    (request.structValid = true → categoryCompetent identity.role v.metadata →
      ∃ v2, vehicleUpdate store identity vid request =
          (store.map (fun x => if x.id == some vid then v2 else x), .ok v2)
        ∧ v2.id = v.id ∧ v2.brand = v.brand ∧ v2.metadata = v.metadata
        ∧ v2.year_of_production = v.year_of_production
        ∧ v2.added_at = v.added_at ∧ v2.added_by = v.added_by)
    ∧ (request.structValid = true →
      ¬categoryCompetent identity.role v.metadata →
      ∃ m, vehicleUpdate store identity vid request =
        (store, .error (.Forbidden m)))
    ∧ (request.structValid = false →
      vehicleUpdate store identity vid request =
        (store, .error (.BadRequest "Validation error"))) := by
  obtain ⟨role, uid⟩ := identity
  refine ⟨?_, ?_, ?_⟩
  · intro hval hcomp
    have hperm : check_vehicle_type_permission ⟨role, uid⟩ v = .ok () := by
      rcases hcomp with h1 | ⟨h1, c, hc⟩ | ⟨h1, m, hm⟩
      · cases h1
        rfl
      · cases h1
        simp [check_vehicle_type_permission, hc]
      · cases h1
        simp [check_vehicle_type_permission, hm]
    obtain ⟨rd, rp⟩ := request
    rcases rd with - | d <;> rcases rp with - | p
    · exact ⟨v, by simp [vehicleUpdate, hfind, validate_update_vehicle,
        hval, hperm], rfl, rfl, rfl, rfl, rfl, rfl⟩
    · exact ⟨{ v with price_by_day := p },
        by simp [vehicleUpdate, hfind, validate_update_vehicle, hval, hperm],
        rfl, rfl, rfl, rfl, rfl, rfl⟩
    · exact ⟨{ v with description := d },
        by simp [vehicleUpdate, hfind, validate_update_vehicle, hval, hperm],
        rfl, rfl, rfl, rfl, rfl, rfl⟩
    · exact ⟨{ v with description := d, price_by_day := p },
        by simp [vehicleUpdate, hfind, validate_update_vehicle, hval, hperm],
        rfl, rfl, rfl, rfl, rfl, rfl⟩
  · intro hval hncomp
    cases role with
    | Admin => exact absurd (Or.inl rfl) hncomp
    | CarManager =>
      rcases hmd : v.metadata with ⟨c⟩ | ⟨m⟩
      · exact absurd (Or.inr (Or.inl ⟨rfl, c, hmd⟩)) hncomp
      · exact ⟨"CarManager can only manage cars.",
          by simp [vehicleUpdate, hfind, validate_update_vehicle, hval,
            check_vehicle_type_permission, hmd]⟩
    | MotorbikeManager =>
      rcases hmd : v.metadata with ⟨c⟩ | ⟨m⟩
      · exact ⟨"MotorbikeManager can only manage motorbikes.",
          by simp [vehicleUpdate, hfind, validate_update_vehicle, hval,
            check_vehicle_type_permission, hmd]⟩
      · exact absurd (Or.inr (Or.inr ⟨rfl, m, hmd⟩)) hncomp
    | Customer =>
      exact ⟨"Insufficient permissions to manage vehicles.",
        by simp [vehicleUpdate, hfind, validate_update_vehicle, hval,
          check_vehicle_type_permission]⟩
  · intro hval
    simp [vehicleUpdate, hfind, validate_update_vehicle, hval]

/-- C9 amended witness: a concrete permitted update succeeds, a concrete
mismatched manager is Forbidden with the store unchanged, and a concrete
invalid payload is a BadRequest. -/
theorem vehicle_update_frame_witness :
    (vehicleUpdate
        [⟨some 1, .TESLA, .Car ⟨.TESLA, .MODEL_3, 5, .ELECTRIC, .MANUAL, 0⟩,
          none, 10, 2020, 0, "admin"⟩]
        ⟨.CarManager, "m"⟩ 1 ⟨none, some 20⟩).2.isOk = true
  ∧ (vehicleUpdate
      [⟨some 1, .HONDA, .Motorbike ⟨.HONDA, .SPORTBIKE, 600, false⟩, none,
        10, 2020, 0, "admin"⟩]
      ⟨.CarManager, "m"⟩ 1 ⟨none, some 20⟩).1 =
      [⟨some 1, .HONDA, .Motorbike ⟨.HONDA, .SPORTBIKE, 600, false⟩, none,
        10, 2020, 0, "admin"⟩]
  ∧ vehicleResultIsForbidden (vehicleUpdate
      [⟨some 1, .HONDA, .Motorbike ⟨.HONDA, .SPORTBIKE, 600, false⟩, none,
        10, 2020, 0, "admin"⟩]
      ⟨.CarManager, "m"⟩ 1 ⟨none, some 20⟩).2 = true
  ∧ vehicleUpdate
      [⟨some 1, .HONDA, .Motorbike ⟨.HONDA, .SPORTBIKE, 600, false⟩, none,
        10, 2020, 0, "admin"⟩]
      ⟨.Customer, "c"⟩ 1 ⟨none, some 0⟩ =
      ([⟨some 1, .HONDA, .Motorbike ⟨.HONDA, .SPORTBIKE, 600, false⟩, none,
        10, 2020, 0, "admin"⟩],
        .error (.BadRequest "Validation error")) := by
  have hvalid : ({ description := none, price_by_day := some 20 } :
      UpdateVehicleRequest).structValid = true := by
    simp only [UpdateVehicleRequest.structValid, Bool.true_and,
      decide_eq_true_eq]
    norm_num
  have hinvalid : ({ description := none, price_by_day := some 0 } :
      UpdateVehicleRequest).structValid = false := by
    simp only [UpdateVehicleRequest.structValid, Bool.true_and,
      decide_eq_false_iff_not]
    norm_num
  obtain ⟨v2, heq1, -, -, -, -, -, -⟩ :=
    (vehicle_update_frame
      [⟨some 1, .TESLA, .Car ⟨.TESLA, .MODEL_3, 5, .ELECTRIC, .MANUAL, 0⟩,
        none, 10, 2020, 0, "admin"⟩]
      ⟨.CarManager, "m"⟩ 1 ⟨none, some 20⟩
      ⟨some 1, .TESLA, .Car ⟨.TESLA, .MODEL_3, 5, .ELECTRIC, .MANUAL, 0⟩,
        none, 10, 2020, 0, "admin"⟩ rfl).1 hvalid
      (Or.inr (Or.inl ⟨rfl, _, rfl⟩))
  obtain ⟨m, heq2⟩ :=
    (vehicle_update_frame
      [⟨some 1, .HONDA, .Motorbike ⟨.HONDA, .SPORTBIKE, 600, false⟩, none,
        10, 2020, 0, "admin"⟩]
      ⟨.CarManager, "m"⟩ 1 ⟨none, some 20⟩
      ⟨some 1, .HONDA, .Motorbike ⟨.HONDA, .SPORTBIKE, 600, false⟩, none,
        10, 2020, 0, "admin"⟩ rfl).2.1 hvalid
      (by rintro (h | ⟨-, c, hc⟩ | ⟨h, -, -⟩) <;> simp_all)
  refine ⟨by rw [heq1]; rfl, by rw [heq2], by rw [heq2]; rfl, ?_⟩
  exact (vehicle_update_frame
    [⟨some 1, .HONDA, .Motorbike ⟨.HONDA, .SPORTBIKE, 600, false⟩, none,
      10, 2020, 0, "admin"⟩]
    ⟨.Customer, "c"⟩ 1 ⟨none, some 0⟩
    ⟨some 1, .HONDA, .Motorbike ⟨.HONDA, .SPORTBIKE, 600, false⟩, none,
      10, 2020, 0, "admin"⟩ rfl).2.2 hinvalid

/-! Helper lemmas for the query-builder claims: an add call on a document
that does not yet hold the field appends exactly that criterion's clause
list, and each clause list only carries its own field name. -/

lemma add_filter_fresh (toBson : α → BVal) (d : Document) (k : String)
    (values : Option (List α)) (h : d.any (fun p => p.1 == k) = false) :
    add_filter toBson d k values = d ++ eqFilterClauses toBson k values := by
  match values with
  | none => simp [add_filter, eqFilterClauses]
  | some [] => simp [add_filter, eqFilterClauses]
  | some [v] => simp [add_filter, eqFilterClauses, docInsert, h]
  | some (v1 :: v2 :: t) => simp [add_filter, eqFilterClauses, docInsert, h]

lemma add_string_filter_fresh (toStr : α → String) (d : Document) (k : String)
    (values : Option (List α)) (h : d.any (fun p => p.1 == k) = false) :
    add_string_filter toStr d k values = d ++ strFilterClauses toStr k values := by
  match values with
  | none => simp [add_string_filter, strFilterClauses]
  | some [] => simp [add_string_filter, strFilterClauses]
  | some [v] => simp [add_string_filter, strFilterClauses, docInsert, h]
  | some (v1 :: v2 :: t) =>
    simp [add_string_filter, strFilterClauses, docInsert, h]

lemma add_range_filter_fresh (toBson : α → BVal) (d : Document) (k : String)
    (mn mx : Option α) (h : d.any (fun p => p.1 == k) = false) :
    add_range_filter toBson d k mn mx = d ++ rangeFilterClauses toBson k mn mx := by
  match mn, mx with
  | none, none => simp [add_range_filter, rangeFilterClauses]
  | some a, none => simp [add_range_filter, rangeFilterClauses, docInsert, h]
  | none, some b2 => simp [add_range_filter, rangeFilterClauses, docInsert, h]
  | some a, some b2 =>
    simp [add_range_filter, rangeFilterClauses, docInsert, h]

lemma add_boolean_filter_fresh (d : Document) (k : String)
    (value : Option Bool) (h : d.any (fun p => p.1 == k) = false) :
    add_boolean_filter d k value = d ++ boolFilterClauses k value := by
  match value with
  | none => simp [add_boolean_filter, boolFilterClauses]
  | some b2 => simp [add_boolean_filter, boolFilterClauses, docInsert, h]

lemma eqFilterClauses_any (toBson : α → BVal) (k k2 : String)
    (values : Option (List α)) (h : (k == k2) = false) :
    (eqFilterClauses toBson k values).any (fun p => p.1 == k2) = false := by
  match values with
  | none => rfl
  | some [] => rfl
  | some [v] => simp [eqFilterClauses, h]
  | some (v1 :: v2 :: t) => simp [eqFilterClauses, h]

lemma strFilterClauses_any (toStr : α → String) (k k2 : String)
    (values : Option (List α)) (h : (k == k2) = false) :
    (strFilterClauses toStr k values).any (fun p => p.1 == k2) = false := by
  match values with
  | none => rfl
  | some [] => rfl
  | some [v] => simp [strFilterClauses, h]
  | some (v1 :: v2 :: t) => simp [strFilterClauses, h]

lemma rangeFilterClauses_any (toBson : α → BVal) (k k2 : String)
    (mn mx : Option α) (h : (k == k2) = false) :
    (rangeFilterClauses toBson k mn mx).any (fun p => p.1 == k2) = false := by
  match mn, mx with
  | none, none => rfl
  | some a, none => simp [rangeFilterClauses, h]
  | none, some b2 => simp [rangeFilterClauses, h]
  | some a, some b2 => simp [rangeFilterClauses, h]

lemma boolFilterClauses_any (k k2 : String) (value : Option Bool)
    (h : (k == k2) = false) :
    (boolFilterClauses k value).any (fun p => p.1 == k2) = false := by
  match value with
  | none => rfl
  | some b2 => simp [boolFilterClauses, h]

/-- C7: the composite filter document is exactly the concatenation of one
clause list per criterion — a present equality criterion with one value
contributes an exact-match clause, with several values a member-of-set
clause, and an absent or empty criterion contributes nothing — so with no
criteria present the document is the match-all (empty) predicate. -/
theorem composite_filter_one_clause_per_criterion :
    (∀ f : VehicleFilters, f.to_bson_filter = clausesOf f)
    ∧ VehicleFilters.default.to_bson_filter = [] := by
  have hmain : ∀ f : VehicleFilters, f.to_bson_filter = clausesOf f := by
    intro f
    have hsimp : ∀ (d1 d2 : Document) (k2 : String),
        d1.any (fun p => p.1 == k2) = false →
        d2.any (fun p => p.1 == k2) = false →
        (d1 ++ d2).any (fun p => p.1 == k2) = false := by
      intro d1 d2 k2 h1 h2
      simp [List.any_append, h1, h2]
    simp only [VehicleFilters.to_bson_filter]
    rw [add_string_filter_fresh Brand.display [] "brand" f.brand rfl]
    rw [add_string_filter_fresh FuelType.display _ "metadata.fuel_type"
      f.fuel_type
      (by simp [List.any_append, strFilterClauses_any])]
    rw [add_string_filter_fresh Gearbox.display _ "metadata.gearbox" f.gearbox
      (by simp [List.any_append, strFilterClauses_any])]
    rw [add_filter_fresh (fun (n : Nat) => BVal.i (n : Int)) _
      "year_of_production" f.year_of_production
      (by simp [List.any_append, strFilterClauses_any])]
    rw [add_filter_fresh (fun n => BVal.i n) _ "metadata.seats"
      (f.seats.map (fun l => l.map (fun s => (s : Int))))
      (by simp [List.any_append, strFilterClauses_any, eqFilterClauses_any])]
    rw [add_filter_fresh (fun (n : Nat) => BVal.i (n : Int)) _
      "metadata.engine_cc" f.engine_cc
      (by simp [List.any_append, strFilterClauses_any, eqFilterClauses_any])]
    rw [add_filter_fresh (fun s => BVal.s s) _ "metadata.model" f.model
      (by simp [List.any_append, strFilterClauses_any, eqFilterClauses_any])]
    rw [add_boolean_filter_fresh _ "metadata.has_sidecar" f.has_sidecar
      (by simp [List.any_append, strFilterClauses_any, eqFilterClauses_any])]
    rw [add_range_filter_fresh (fun p => BVal.q p) _ "price_by_day"
      f.min_price f.max_price
      (by simp [List.any_append, strFilterClauses_any, eqFilterClauses_any,
        boolFilterClauses_any])]
    rw [add_range_filter_fresh (fun t => BVal.i t) _ "added_at"
      f.added_at_from f.added_at_to
      (by simp [List.any_append, strFilterClauses_any, eqFilterClauses_any,
        boolFilterClauses_any, rangeFilterClauses_any])]
    simp [clausesOf, List.append_assoc]
  exact ⟨hmain, by rw [hmain]; rfl⟩

/-- C8: the range builder emits only the supplied bounds — nothing when both
are absent, a clause with only the inclusive lower bound, only the inclusive
upper bound, or both — and a range clause matches a value exactly when the
present bounds hold (a missing bound imposes no constraint). -/
theorem range_filter_emits_supplied_bounds :
    (∀ (α : Type) (toBson : α → BVal) (d : Document) (k : String),
      add_range_filter toBson d k none none = d)
    ∧ (∀ (α : Type) (toBson : α → BVal) (d : Document) (k : String) (mn : α),
      add_range_filter toBson d k (some mn) none =
        docInsert d k (.range (some (toBson mn)) none))
    ∧ (∀ (α : Type) (toBson : α → BVal) (d : Document) (k : String) (mx : α),
      add_range_filter toBson d k none (some mx) =
        docInsert d k (.range none (some (toBson mx))))
    ∧ (∀ (α : Type) (toBson : α → BVal) (d : Document) (k : String)
        (mn mx : α),
      add_range_filter toBson d k (some mn) (some mx) =
        docInsert d k (.range (some (toBson mn)) (some (toBson mx))))
    ∧ (∀ lo x : BVal, (Clause.range (some lo) none).matches x = BVal.le lo x)
    ∧ (∀ hi x : BVal, (Clause.range none (some hi)).matches x = BVal.le x hi)
    ∧ (∀ lo hi x : BVal, (Clause.range (some lo) (some hi)).matches x =
        (BVal.le lo x && BVal.le x hi))
    ∧ (∀ x : BVal, (Clause.range none none).matches x = true) := by
  exact ⟨fun α toBson d k => rfl, fun α toBson d k mn => rfl,
    fun α toBson d k mx => rfl, fun α toBson d k mn mx => rfl,
    fun lo x => by simp [Clause.matches], fun hi x => rfl,
    fun lo hi x => rfl, fun x => rfl⟩

end VehicleApi
